/-
Verification of the natural-language specification of brozzler/browser.py
against a shallow embedding of that file in Lean 4.

The embedding follows src/brozzler/browser.py. Pure data manipulation is
translated to Lean functions; the stateful pieces (the browser pool, the
per-visit polling loop of Browser.browse_page, the websocket message handler
Browser._handle_message, and the Chrome.start / Chrome.stop loops) are
translated to explicit state passing. Wall-clock time is passed in as data
(elapsed seconds, or half-second ticks), and the concurrent reader thread is
modelled by letting the state observed at each 500 ms tick of the supervisory
loop be an arbitrary element of a trace.
-/
import Mathlib

set_option maxRecDepth 10000

/-! ## Browser pool (class BrowserPool, browser.py lines 20-52)

A pool holds a set of Browser objects. Browsers are identified here by their
(distinct) chrome debug ports. The pool keeps two Python sets, _available and
_in_use; we also record, for every browser, whether its abort flag has been
set (Browser._abort_browse_page), as the set of ports whose flag is true,
so that BrowserPool.shutdown_now can be expressed. The threading.Lock is not
modelled; every pool operation in the source except shutdown_now executes
under it. -/

structure BrowserPool where
  available : Finset Nat
  in_use : Finset Nat
  aborted : Finset Nat
deriving DecidableEq

/-- Default base port of the pool (BrowserPool.BASE_PORT). -/
def BASE_PORT : Nat := 9200

/-- State built by BrowserPool.__init__(size): browsers on ports
BASE_PORT + 0 .. BASE_PORT + size - 1, all available, none in use,
no abort flag set. -/
def BrowserPool.init (size : Nat) : BrowserPool :=
  { available := (Finset.range size).image (fun i => BASE_PORT + i)
  , in_use := ∅
  , aborted := ∅ }

/-- Effect of BrowserPool.acquire when set.pop() picked browser b.
Python set.pop removes an arbitrary element; the chosen element is passed
as an argument, with b ∈ available as the side condition under which pop
does not raise. -/
def BrowserPool.acquire (s : BrowserPool) (b : Nat) : BrowserPool :=
  { s with available := s.available.erase b, in_use := insert b s.in_use }

/-- Effect of BrowserPool.release(b): first _available.add(b), then
_in_use.remove(b). Python set.remove raises KeyError when the element is
absent; the returned Bool is true exactly when KeyError is raised, and the
returned state is the state at the moment of the raise (the add has already
happened). -/
def BrowserPool.release (s : BrowserPool) (b : Nat) : BrowserPool × Bool :=
  let s1 : BrowserPool := { s with available := insert b s.available }
  if b ∈ s1.in_use then ({ s1 with in_use := s1.in_use.erase b }, false)
  else (s1, true)

/-- Effect of BrowserPool.shutdown_now(): call abort_browse_page() on every
browser in _in_use. The two pool sets are not touched; each call sets the
browser's abort flag. -/
def BrowserPool.shutdown_now (s : BrowserPool) : BrowserPool :=
  { s with aborted := s.aborted ∪ s.in_use }

/-- Pool states reachable from construction by the operations the spec
describes: acquire of an available browser, release of an in-use browser,
and fleet-wide shutdown_now. -/
inductive PoolReachable (size : Nat) : BrowserPool → Prop
  | init : PoolReachable size (BrowserPool.init size)
  | acquire (s : BrowserPool) (b : Nat) : PoolReachable size s →
      b ∈ s.available → PoolReachable size (s.acquire b)
  | release (s : BrowserPool) (b : Nat) : PoolReachable size s →
      b ∈ s.in_use → PoolReachable size (s.release b).1
  | shutdown (s : BrowserPool) : PoolReachable size s →
      PoolReachable size s.shutdown_now

/-! ## The per-tick termination check (Browser._browse_interval_func,
browser.py lines 165-182)

browse_page sleeps 0.5 s and then calls _browse_interval_func, forever,
until that function returns a truthy value (finish) or raises. The fields
read by the function are snapshotted in TickState; the reader thread may
change them between ticks, so a run of the loop is a list of TickStates. -/

structure TickState where
  connected : Bool
  behaviorPresent : Bool
  behaviorFinished : Bool
  outlinks : Option (Finset String)
  waitingOnOutlinksId : Option Nat
  elapsed : Nat
  abortRequested : Bool
deriving DecidableEq

/-- Browser.HARD_TIMEOUT_SECONDS = 20 * 60. -/
def HARD_TIMEOUT_SECONDS : Nat := 20 * 60

/-- Python truthiness of self._outlinks (None or a frozenset): None and the
empty frozenset are falsy. -/
def truthy_outlinks : Option (Finset String) → Bool
  | none => false
  | some o => o.card != 0

/-- Python truthiness of a msg id slot (None or an int): None and 0 are
falsy. Ids are allocated from itertools.count(1) so 0 never occurs. -/
def truthy_msg_id : Option Nat → Bool
  | none => false
  | some n => n != 0

inductive TickOutcome where
  | raiseBrowsingException
  | finishedOutlinks
  | issueOutlinkQuery
  | finishedTimeout
  | raiseBrowsingAborted
  | cont
deriving DecidableEq

/-- Translation of Browser._browse_interval_func. The if/elif chain is
nested exactly as in the source: when the behavior-finished branch is taken,
the hard-timeout and abort checks are never reached on that tick. Falling
out of the chain returns Python None (falsy), i.e. the loop continues;
issuing the outlink query also returns falsy after sending the command. -/
def browse_interval_func (s : TickState) : TickOutcome :=
  if !s.connected then .raiseBrowsingException
  else if s.behaviorPresent && s.behaviorFinished then
    if truthy_outlinks s.outlinks then .finishedOutlinks
    else if !truthy_msg_id s.waitingOnOutlinksId then .issueOutlinkQuery
    else .cont
  else if HARD_TIMEOUT_SECONDS < s.elapsed then .finishedTimeout
  else if s.abortRequested then .raiseBrowsingAborted
  else .cont

/-- Modelled from the spec: the flat evaluation order claimed in section 4.2
(Interval polling): transport dead, then behavior finished with outlinks
present (return), then behavior finished without outlinks-pending (issue
outlink query), then hard timeout (return), then abort (raise), where each
condition is tested in sequence whenever the previous one is false. Used
only to compare the spec wording with browse_interval_func. -/
def spec_interval_check (s : TickState) : TickOutcome :=
  if !s.connected then .raiseBrowsingException
  else if s.behaviorPresent && s.behaviorFinished && truthy_outlinks s.outlinks then
    .finishedOutlinks
  else if s.behaviorPresent && s.behaviorFinished && !truthy_msg_id s.waitingOnOutlinksId then
    .issueOutlinkQuery
  else if HARD_TIMEOUT_SECONDS < s.elapsed then .finishedTimeout
  else if s.abortRequested then .raiseBrowsingAborted
  else .cont

inductive BrowseError where
  | browsingException
  | browsingAborted
deriving DecidableEq

/-- View of Except as a sum, to derive decidable equality. -/
def except_to_sum {ε α : Type} : Except ε α → ε ⊕ α
  | .error e => .inl e
  | .ok a => .inr a

instance {ε α : Type} [DecidableEq ε] [DecidableEq α] :
    DecidableEq (Except ε α) := fun a b =>
  decidable_of_iff (except_to_sum a = except_to_sum b)
    (by cases a <;> cases b <;> simp [except_to_sum])

/-- Supervisory loop of Browser.browse_page (lines 143-147): each tick reads
the visit state and runs _browse_interval_func. A truthy return yields the
current self._outlinks (None possible); an exception propagates. The result
is none while the trace runs out with the loop still going. -/
def browse_loop : List TickState → Option (Except BrowseError (Option (Finset String)))
  | [] => none
  | s :: rest =>
    match browse_interval_func s with
    | .raiseBrowsingException => some (.error .browsingException)
    | .raiseBrowsingAborted => some (.error .browsingAborted)
    | .finishedOutlinks => some (.ok s.outlinks)
    | .finishedTimeout => some (.ok s.outlinks)
    | .issueOutlinkQuery => browse_loop rest
    | .cont => browse_loop rest

/-! ## Abort flag lifecycle (Browser, lines 70-111)

The only writes to Browser._abort_browse_page in the source are
__init__ (False) and abort_browse_page() (True). No operation of the
Browser ever resets it to False. -/

inductive DriverOp where
  | start
  | stop
  | abortBrowsePage
  | browsePage
  | handleMessage
deriving DecidableEq

/-- Effect of each Browser operation on the _abort_browse_page flag. -/
def apply_abort_flag (b : Bool) : DriverOp → Bool
  | .abortBrowsePage => true
  | _ => b

/-! ## Websocket message handler (Browser._visit_page and
Browser._handle_message, lines 184-261)

Command ids come from itertools.count(1). Observable actions (commands sent,
callbacks invoked, behavior lifecycle) are recorded as an event log. The
Behavior collaborator is external; its is_waiting_on_result predicate is a
function parameter of the state. A result message carries one string
payload: result.data for the screenshot reply, result.result.value for the
Runtime.evaluate replies (each reply is consumed by exactly one branch). -/

inductive Msg where
  | requestWillBeSent (url : String)
  | loadEventFired
  | consoleMessageAdded (text : String)
  | debuggerPaused (scriptId : String)
  | result (id : Nat) (data : String)
deriving DecidableEq

inductive Event where
  | sent (id : Nat) (method : String)
  | notifiedActivity
  | onRequestCalled (url : String)
  | screenshotTaken (png : List Nat)
  | behaviorConstructed (url : String)
  | behaviorStarted
  | outlinksSet (links : Finset String)
  | onUrlChangeCalled (url : String)
  | notifiedResult (id : Nat)
deriving DecidableEq

structure BrowserState where
  nextId : Nat
  url : String
  onRequestSet : Bool
  onScreenshotSet : Bool
  onUrlChangeSet : Bool
  waitingScreenshotId : Option Nat
  waitingOutlinksId : Option Nat
  waitingDocUrlId : Option Nat
  behaviorPresent : Bool
  behaviorWaiting : Nat → Bool
  outlinks : Option (Finset String)

/-- State at the top of browse_page (lines 121-131): fresh callback slots,
all waiting ids None, no outlinks, no behavior; the command id counter
starts at 1 (itertools.count(1) in __init__; the source starts one chrome
per page so a visit starts with a fresh Browser). -/
def init_browser_state (url : String) (onReq onShot onUrlCh : Bool)
    (bw : Nat → Bool) : BrowserState :=
  { nextId := 1, url := url, onRequestSet := onReq, onScreenshotSet := onShot
  , onUrlChangeSet := onUrlCh, waitingScreenshotId := none
  , waitingOutlinksId := none, waitingDocUrlId := none
  , behaviorPresent := false, behaviorWaiting := bw, outlinks := none }

/-- Browser.send_to_chrome: allocate the next command id, send, return it. -/
def send_to_chrome (s : BrowserState) (method : String) :
    BrowserState × Nat × List Event :=
  ({ s with nextId := s.nextId + 1 }, s.nextId, [Event.sent s.nextId method])

/-- Send a sequence of commands, discarding the returned ids. -/
def send_seq (s : BrowserState) : List String → BrowserState × List Event
  | [] => (s, [])
  | m :: ms =>
    let r1 := send_to_chrome s m
    let r2 := send_seq r1.1 ms
    (r2.1, r1.2.2 ++ r2.2)

/-- Browser._visit_page: the five domain enables, the analytics breakpoint,
and Page.navigate, in source order. -/
def visit_page (s : BrowserState) : BrowserState × List Event :=
  send_seq s ["Network.enable", "Page.enable", "Console.enable",
    "Debugger.enable", "Runtime.enable", "Debugger.setBreakpointByUrl",
    "Page.navigate"]

/-- Base64 value of one alphabet character, none for non-alphabet input. -/
def b64index (c : Char) : Option Nat :=
  if 65 ≤ c.toNat ∧ c.toNat ≤ 90 then some (c.toNat - 65)
  else if 97 ≤ c.toNat ∧ c.toNat ≤ 122 then some (c.toNat - 71)
  else if 48 ≤ c.toNat ∧ c.toNat ≤ 57 then some (c.toNat + 4)
  else if c = '+' then some 62
  else if c = '/' then some 63
  else none

/-- Decode base64 characters four at a time into bytes (values 0-255),
honouring trailing padding. Models base64.b64decode on well-formed input. -/
def b64decode_chars : List Char → List Nat
  | a :: b :: c :: d :: rest =>
    match b64index a, b64index b with
    | some va, some vb =>
      if c = '=' then [va * 4 + vb / 16]
      else
        match b64index c with
        | some vc =>
          if d = '=' then [va * 4 + vb / 16, (vb % 16) * 16 + vc / 4]
          else
            match b64index d with
            | some vd =>
              (va * 4 + vb / 16) :: ((vb % 16) * 16 + vc / 4) ::
                ((vc % 4) * 64 + vd) :: b64decode_chars rest
            | none => []
        | none => []
    | _, _ => []
  | _ => []

/-- Model of base64.b64decode as used on the screenshot reply. -/
def b64decode (s : String) : List Nat :=
  b64decode_chars s.toList

/-- Split a character list at every single space character, keeping empty
fields, exactly as Python str.split(" ") with the explicit one-character
separator does: the empty string gives [""], and adjacent separators give
empty fields. acc holds the characters of the current field in reverse. -/
def py_split_space_aux : List Char → List Char → List String
  | [], acc => [String.mk acc.reverse]
  | c :: cs, acc =>
    if c = ' ' then String.mk acc.reverse :: py_split_space_aux cs []
    else py_split_space_aux cs (c :: acc)

/-- Python value.split(" "): split on each single space, keeping empty
fields. -/
def py_split_space (v : String) : List String :=
  py_split_space_aux v.toList []

/-- Outlink set stored by _handle_message (line 248):
frozenset(value.split(" ")). -/
def outlinks_of_value (v : String) : Finset String :=
  (py_split_space v).toFinset

/-- Translation of Browser._handle_message (lines 206-261), returning the
updated visit state and the list of observable actions, in order. -/
def handle_message (s : BrowserState) (m : Msg) : BrowserState × List Event :=
  match m with
  | .requestWillBeSent u =>
    let evA := if s.behaviorPresent then [Event.notifiedActivity] else []
    let evR :=
      if (u.toLower).startsWith "data:" then []
      else if s.onRequestSet then [Event.onRequestCalled u] else []
    (s, evA ++ evR)
  | .loadEventFired =>
    let r1 := send_to_chrome s "Page.captureScreenshot"
    let r2 := send_to_chrome r1.1 "Runtime.evaluate"
    let shotId := r1.2.1
    let docId := r2.2.1
    let s2 := r2.1
    let s3 := { s2 with waitingScreenshotId := some shotId, waitingDocUrlId := some docId }
    (s3, r1.2.2 ++ r2.2.2)
  | .consoleMessageAdded _ => (s, [])
  | .debuggerPaused _ =>
    let r1 := send_to_chrome s "Debugger.setScriptSource"
    let r2 := send_to_chrome r1.1 "Debugger.resume"
    (r2.1, r1.2.2 ++ r2.2.2)
  | .result id data =>
    if s.waitingScreenshotId = some id then
      let evShot :=
        if s.onScreenshotSet then [Event.screenshotTaken (b64decode data)] else []
      ({ s with waitingScreenshotId := none, behaviorPresent := true },
        evShot ++ [Event.behaviorConstructed s.url, Event.behaviorStarted])
    else if s.waitingOutlinksId = some id then
      ({ s with outlinks := some (outlinks_of_value data) },
        [Event.outlinksSet (outlinks_of_value data)])
    else if s.waitingDocUrlId = some id then
      let ev :=
        if data ≠ s.url then
          if s.onUrlChangeSet then [Event.onUrlChangeCalled data] else []
        else []
      ({ s with waitingDocUrlId := none }, ev)
    else if s.behaviorPresent && s.behaviorWaiting id then
      (s, [Event.notifiedResult id])
    else (s, [])

/-- Process a list of incoming websocket messages in order. -/
def handle_messages (s : BrowserState) : List Msg → BrowserState × List Event
  | [] => (s, [])
  | m :: ms =>
    let r1 := handle_message s m
    let r2 := handle_messages r1.1 ms
    (r2.1, r1.2 ++ r2.2)

def is_load_event : Msg → Bool
  | .loadEventFired => true
  | _ => false

def is_screenshot_event : Event → Bool
  | .screenshotTaken _ => true
  | _ => false

/-- Number of onScreenshot invocations recorded in an event log. -/
def screenshot_count (l : List Event) : Nat :=
  (l.filter is_screenshot_event).length

/-- Every behaviorStarted occurrence in the log has an onScreenshot
invocation strictly before it. -/
def starts_covered (l : List Event) : Prop :=
  ∀ pre suf, l = pre ++ Event.behaviorStarted :: suf →
    ∃ d, Event.screenshotTaken d ∈ pre

/-! ## Chrome supervisor (class Chrome, browser.py lines 263-352) -/

/-- One entry of the list served at http://localhost:port/json; only the
fields the source reads are modelled. The optional webSocketDebuggerUrl
models presence of that key in the JSON object. -/
structure DebugTarget where
  url : String
  webSocketDebuggerUrl : Option String
deriving DecidableEq

/-- Target selection of Chrome.start (lines 310-317): keep the entries whose
url is exactly about:blank, and if that list is nonempty and its FIRST entry
has the webSocketDebuggerUrl key, return that url; otherwise nothing (the
poll loop continues). -/
def select_debug_target (targets : List DebugTarget) : Option String :=
  match targets.filter (fun t => t.url == "about:blank") with
  | [] => none
  | t :: _ => t.webSocketDebuggerUrl

/-- Modelled from the spec: select the unique entry whose url field equals
about:blank and whose webSocketDebuggerUrl is present; return that URL
(section 4.1). Used only to compare the spec wording with
select_debug_target. -/
def spec_select_target (targets : List DebugTarget) : Option String :=
  match targets.filter
      (fun t => t.url == "about:blank" && t.webSocketDebuggerUrl.isSome) with
  | [t] => t.webSocketDebuggerUrl
  | _ => none

inductive ChromeStartResult where
  | ok (url : String)
  | startupTimeout
deriving DecidableEq

/-- Poll loop of Chrome.start (lines 305-324). Each iteration is given the
parsed response of GET /json (none when the request or the parse raised)
and the elapsed whole seconds since spawn as observed by the finally clause.
The try/finally semantics of the source is kept: the timeout check in the
finally clause runs even on an iteration that found a target, so a target
found after the deadline is still a startup failure. The chrome process is
never touched by this loop. The result is none while the trace runs out
with the loop still polling every 500 ms. -/
def chrome_start_loop :
    List (Option (List DebugTarget) × Nat) → Option ChromeStartResult
  | [] => none
  | (resp, elapsed) :: rest =>
    match resp.bind select_debug_target with
    | some u =>
      if 600 < elapsed then some .startupTimeout else some (.ok u)
    | none =>
      if 600 < elapsed then some .startupTimeout else chrome_start_loop rest

/-- Outcome of Chrome.stop. tempDirsDeleted records whether Chrome.stop
removed the two temporary directories (it never does in the source; the
Browser deletes its TemporaryDirectory in Browser.stop). -/
structure ChromeStopResult where
  processAlive : Bool
  tempDirsDeleted : Bool
  sigkillSent : Bool
  sigtermCount : Nat
deriving DecidableEq

/-- Polling loop of Chrome.stop (lines 326-352) in half-second ticks.
poll t gives the exit status Popen.poll() reports at tick t (none while the
process is still running). fuel is the number of half-second ticks left in
the 300 s window, now the half-seconds elapsed since the first SIGTERM, and
lastSig the tick of the most recent SIGTERM. When the window is exhausted,
SIGKILL is sent and the process reaped synchronously. -/
def chrome_stop_aux (poll : Nat → Option Int) :
    Nat → Nat → Nat → Nat → ChromeStopResult
  | 0, _, _, terms =>
    { processAlive := false, tempDirsDeleted := false
    , sigkillSent := true, sigtermCount := terms }
  | fuel + 1, now, lastSig, terms =>
    let now2 := now + 1
    match poll now2 with
    | some _ =>
      { processAlive := false, tempDirsDeleted := false
      , sigkillSent := false, sigtermCount := terms }
    | none =>
      if 20 < now2 - lastSig then chrome_stop_aux poll fuel now2 now2 (terms + 1)
      else chrome_stop_aux poll fuel now2 lastSig terms

/-- Chrome.stop: one initial SIGTERM, then the 600-tick (300 s) poll loop. -/
def chrome_stop (poll : Nat → Option Int) : ChromeStopResult :=
  chrome_stop_aux poll 600 0 0 1

/-! ## Helper lemmas -/

lemma erase_union_insert_of_mem {α : Type} [DecidableEq α] {av iu : Finset α}
    {b : α} (hb : b ∈ av) : av.erase b ∪ insert b iu = av ∪ iu := by
  ext a
  by_cases hab : a = b
  · subst hab
    simp [hb]
  · simp [hab, Finset.mem_erase, Finset.mem_union, Finset.mem_insert]

lemma insert_union_erase_of_mem {α : Type} [DecidableEq α] {av iu : Finset α}
    {b : α} (hb : b ∈ iu) : insert b av ∪ iu.erase b = av ∪ iu := by
  ext a
  by_cases hab : a = b
  · subst hab
    simp [hb]
  · simp [hab, Finset.mem_erase, Finset.mem_union, Finset.mem_insert]

lemma release_of_mem (s : BrowserPool) (b : Nat) (hb : b ∈ s.in_use) :
    s.release b = (⟨insert b s.available, s.in_use.erase b, s.aborted⟩, false) := by
  simp [BrowserPool.release, hb]

lemma release_of_not_mem (s : BrowserPool) (b : Nat) (hb : b ∉ s.in_use) :
    s.release b = (⟨insert b s.available, s.in_use, s.aborted⟩, true) := by
  simp [BrowserPool.release, hb]

/-! ## Claim theorems: browser pool -/

/-- C1: for every BrowserPool reachable by construction, acquire of an
available browser, release of an in-use browser and shutdown_now, the
available set and the in-use set are disjoint, their union is the initial
driver set (constant over the pool's lifetime) and its cardinality is the
pool's size; moreover acquire moves the popped driver from available to
in-use and release moves it back. The pool lock, under which the source
runs acquire and release, is not modelled. -/
theorem c1_pool_partition (size : Nat) (s : BrowserPool)
    (h : PoolReachable size s) :
    (Disjoint s.available s.in_use ∧
      s.available ∪ s.in_use = (BrowserPool.init size).available ∧
      (s.available ∪ s.in_use).card = size) ∧
    (∀ b ∈ s.available,
      (s.acquire b).available = s.available.erase b ∧
      (s.acquire b).in_use = insert b s.in_use ∧
      b ∉ (s.acquire b).available ∧ b ∈ (s.acquire b).in_use) ∧
    (∀ b ∈ s.in_use,
      (s.release b).2 = false ∧
      (s.release b).1.available = insert b s.available ∧
      (s.release b).1.in_use = s.in_use.erase b ∧
      b ∈ (s.release b).1.available ∧ b ∉ (s.release b).1.in_use) := by
  refine ⟨?_, ?_, ?_⟩
  · induction h with
    | init =>
      refine ⟨by simp [BrowserPool.init], by simp [BrowserPool.init], ?_⟩
      simp only [BrowserPool.init, Finset.union_empty]
      rw [Finset.card_image_of_injective _ (add_right_injective BASE_PORT),
        Finset.card_range]
    | acquire s b hs hb ih =>
      obtain ⟨hd, hu, hc⟩ := ih
      refine ⟨?_, ?_, ?_⟩
      · exact Finset.disjoint_insert_right.mpr
          ⟨Finset.not_mem_erase _ _,
            Finset.disjoint_of_subset_left (Finset.erase_subset _ _) hd⟩
      · show s.available.erase b ∪ insert b s.in_use = _
        rw [erase_union_insert_of_mem hb, hu]
      · show (s.available.erase b ∪ insert b s.in_use).card = size
        rw [erase_union_insert_of_mem hb, hc]
    | release s b hs hb ih =>
      obtain ⟨hd, hu, hc⟩ := ih
      rw [release_of_mem s b hb]
      refine ⟨?_, ?_, ?_⟩
      · exact Finset.disjoint_insert_left.mpr
          ⟨Finset.not_mem_erase _ _,
            Finset.disjoint_of_subset_right (Finset.erase_subset _ _) hd⟩
      · show insert b s.available ∪ s.in_use.erase b = _
        rw [insert_union_erase_of_mem hb, hu]
      · show (insert b s.available ∪ s.in_use.erase b).card = size
        rw [insert_union_erase_of_mem hb, hc]
    | shutdown s hs ih => simpa [BrowserPool.shutdown_now] using ih
  · intro b hb
    exact ⟨rfl, rfl, Finset.not_mem_erase _ _, Finset.mem_insert_self _ _⟩
  · intro b hb
    rw [release_of_mem s b hb]
    exact ⟨rfl, rfl, rfl, Finset.mem_insert_self _ _, Finset.not_mem_erase _ _⟩

/-- Witness for C1 at a concrete pool of size 2. -/
theorem c1_pool_partition_witness :
    Disjoint (BrowserPool.init 2).available (BrowserPool.init 2).in_use ∧
    (BrowserPool.init 2).available ∪ (BrowserPool.init 2).in_use
      = (BrowserPool.init 2).available ∧
    ((BrowserPool.init 2).available ∪ (BrowserPool.init 2).in_use).card = 2 :=
  (c1_pool_partition 2 (BrowserPool.init 2) PoolReachable.init).1

/-- C9 amended: release(d) with d not in the in-use set raises KeyError
after executing the add of d into available, leaving in_use (and the abort
flags) unchanged; the add grows available by one exactly when d was not
already available (a driver foreign to the pool), and is a no-op when d was
already available (double release). -/
theorem c9_release_error_path (s : BrowserPool) (d : Nat)
    (h : d ∉ s.in_use) :
    (s.release d).2 = true ∧
    (s.release d).1.available = insert d s.available ∧
    (s.release d).1.in_use = s.in_use ∧
    (s.release d).1.aborted = s.aborted ∧
    (d ∉ s.available → (s.release d).1.available.card = s.available.card + 1) ∧
    (d ∈ s.available → (s.release d).1.available = s.available) := by
  rw [release_of_not_mem s d h]
  refine ⟨rfl, rfl, rfl, rfl, ?_, ?_⟩
  · intro hd
    exact Finset.card_insert_of_not_mem hd
  · intro hd
    exact Finset.insert_eq_self.mpr hd

/-- Counterexample for C9 as stated: double release. Releasing a driver
that is already available (never acquired, or released once already) raises
KeyError but leaves the pool state entirely unchanged; the available set
does not grow and no invariant is broken. -/
theorem c9_counterexample :
    (BrowserPool.release ⟨{1}, ∅, ∅⟩ 1).2 = true ∧
    (BrowserPool.release ⟨{1}, ∅, ∅⟩ 1).1 = ⟨{1}, ∅, ∅⟩ := by decide

/-- Witness for C9 amended at a concrete pool and a foreign driver. -/
theorem c9_release_error_path_witness :
    (BrowserPool.release ⟨{1, 2}, ∅, ∅⟩ 3).2 = true ∧
    (BrowserPool.release ⟨{1, 2}, ∅, ∅⟩ 3).1.available.card
      = ({1, 2} : Finset Nat).card + 1 :=
  ⟨(c9_release_error_path ⟨{1, 2}, ∅, ∅⟩ 3 (by decide)).1,
    (c9_release_error_path ⟨{1, 2}, ∅, ∅⟩ 3 (by decide)).2.2.2.2.1 (by decide)⟩

/-- C10: shutdown_now sets the abort flag of every driver currently in the
in-use set, leaves both pool sets unchanged, and does not touch the flag of
any driver outside the in-use set. The source iterates over _in_use without
taking the pool lock and only sets a boolean per driver, so it does not
block; the lock itself is not modelled. -/
theorem c10_shutdown_now_frame (s : BrowserPool) :
    s.shutdown_now.available = s.available ∧
    s.shutdown_now.in_use = s.in_use ∧
    (∀ d, d ∈ s.in_use → d ∈ s.shutdown_now.aborted) ∧
    (∀ d, d ∉ s.in_use → (d ∈ s.shutdown_now.aborted ↔ d ∈ s.aborted)) := by
  refine ⟨rfl, rfl, ?_, ?_⟩
  · intro d hd
    simp [BrowserPool.shutdown_now, hd]
  · intro d hd
    simp [BrowserPool.shutdown_now, hd]

/-- Witness for C10 at a concrete pool. -/
theorem c10_shutdown_now_frame_witness :
    (BrowserPool.shutdown_now ⟨{1}, {2}, ∅⟩).available = {1} ∧
    2 ∈ (BrowserPool.shutdown_now ⟨{1}, {2}, ∅⟩).aborted :=
  ⟨(c10_shutdown_now_frame ⟨{1}, {2}, ∅⟩).1,
    (c10_shutdown_now_frame ⟨{1}, {2}, ∅⟩).2.2.1 2 (by decide)⟩

/-! ## Helper lemmas for the interval tick -/

lemma bp_bf_false {s : TickState}
    (hb : ¬(s.behaviorPresent = true ∧ s.behaviorFinished = true)) :
    (s.behaviorPresent && s.behaviorFinished) = false := by
  cases hbp : s.behaviorPresent <;> cases hbf : s.behaviorFinished <;> simp_all

/-- Characterization of the ticks on which _browse_interval_func raises
BrowsingAborted: the websocket must be connected, the behavior-finished
branch must not be taken, and the hard timeout must not be exceeded. -/
lemma interval_aborted_iff (s : TickState) :
    browse_interval_func s = .raiseBrowsingAborted ↔
      (s.connected = true ∧
        ¬(s.behaviorPresent = true ∧ s.behaviorFinished = true) ∧
        s.elapsed ≤ HARD_TIMEOUT_SECONDS ∧ s.abortRequested = true) := by
  unfold browse_interval_func
  split_ifs with h1 h2 h3 h4 h5 h6 <;>
    simp_all [truthy_outlinks, truthy_msg_id]

lemma interval_timeout_of {s : TickState} (hc : s.connected = true)
    (hb : ¬(s.behaviorPresent = true ∧ s.behaviorFinished = true))
    (ht : HARD_TIMEOUT_SECONDS < s.elapsed) :
    browse_interval_func s = .finishedTimeout := by
  simp [browse_interval_func, hc, bp_bf_false hb, ht]

lemma interval_cont_of {s : TickState} (hc : s.connected = true)
    (hb : ¬(s.behaviorPresent = true ∧ s.behaviorFinished = true))
    (ht : s.elapsed ≤ HARD_TIMEOUT_SECONDS) (ha : s.abortRequested = false) :
    browse_interval_func s = .cont := by
  simp [browse_interval_func, hc, bp_bf_false hb, Nat.not_lt.mpr ht, ha]

/-! ## Claim theorems: interval polling, hard timeout, abort -/

/-- C2 counterexample: a tick state with the websocket connected, the
behavior finished, no outlinks yet, the outlink query pending, and the
abort flag set. The flat evaluation order the claim describes would reach
the abort check and raise BrowsingAborted, but the source's nested elif
chain takes the behavior-finished branch and falls through: the tick
continues, and the loop neither raises nor returns however many such ticks
pass (here ten ticks, i.e. five seconds, far beyond 500 ms + one tick). -/
theorem c2_counterexample :
    browse_interval_func ⟨true, true, true, none, some 9, 100, true⟩
      = .cont ∧
    spec_interval_check ⟨true, true, true, none, some 9, 100, true⟩
      = .raiseBrowsingAborted ∧
    browse_loop (List.replicate 10 ⟨true, true, true, none, some 9, 100, true⟩)
      = none := by decide

/-- C2 amended: the termination conditions are evaluated in the source's
nested order: transport dead; else behavior finished (then: outlinks
present returns, no pending outlink query issues it, otherwise the tick
falls through WITHOUT evaluating the hard timeout or the abort flag); else
hard timeout; else abort. Hence after abort_browse_page(), browse_page
raises BrowsingAborted on the very next tick if and only if the transport
is connected, the behavior-finished branch is not taken, and the hard
timeout has not been exceeded on that tick. -/
theorem c2_tick_order_and_abort :
    (∀ s : TickState, browse_interval_func s = .raiseBrowsingAborted ↔
      (s.connected = true ∧
        ¬(s.behaviorPresent = true ∧ s.behaviorFinished = true) ∧
        s.elapsed ≤ HARD_TIMEOUT_SECONDS ∧ s.abortRequested = true)) ∧
    (∀ (s : TickState) (rest : List TickState), s.connected = true →
      ¬(s.behaviorPresent = true ∧ s.behaviorFinished = true) →
      s.elapsed ≤ HARD_TIMEOUT_SECONDS → s.abortRequested = true →
      browse_loop (s :: rest) = some (.error .browsingAborted)) := by
  constructor
  · exact interval_aborted_iff
  · intro s rest h1 h2 h3 h4
    have hs := (interval_aborted_iff s).mpr ⟨h1, h2, h3, h4⟩
    simp [browse_loop, hs]

/-- Witness for C2 amended: with the abort flag set on a fresh tick the
loop raises BrowsingAborted at once. -/
theorem c2_tick_order_and_abort_witness :
    browse_loop [⟨true, false, false, none, none, 0, true⟩]
      = some (.error .browsingAborted) :=
  c2_tick_order_and_abort.2 ⟨true, false, false, none, none, 0, true⟩ []
    rfl (by simp) (Nat.zero_le _) rfl

/-- C3 counterexample: behavior never finished, 1201 s elapsed. The loop
returns the current value of self._outlinks, which is Python None when no
outlinks were captured, not the empty set. -/
theorem c3_counterexample :
    browse_loop [⟨true, false, false, none, none, 1201, false⟩]
      = some (.ok none) ∧
    (none : Option (Finset String)) ≠ some (∅ : Finset String) := by decide

/-- C3 amended: if the behavior never finishes and the hard timeout of
1200 s is exceeded at some tick, while every earlier tick was connected,
un-aborted and within the timeout, browse_page terminates the visit at
that tick and returns the current outlinks field as is; when none were
captured that value is None, not the empty set. -/
theorem c3_hard_timeout_returns_outlinks (pre : List TickState)
    (s : TickState) (rest : List TickState)
    (hpre : ∀ t ∈ pre, t.connected = true ∧
      ¬(t.behaviorPresent = true ∧ t.behaviorFinished = true) ∧
      t.elapsed ≤ HARD_TIMEOUT_SECONDS ∧ t.abortRequested = false)
    (hc : s.connected = true)
    (hb : ¬(s.behaviorPresent = true ∧ s.behaviorFinished = true))
    (ht : HARD_TIMEOUT_SECONDS < s.elapsed) :
    browse_loop (pre ++ s :: rest) = some (.ok s.outlinks) := by
  induction pre with
  | nil =>
    have hs := interval_timeout_of hc hb ht
    simp [browse_loop, hs]
  | cons t ts ih =>
    obtain ⟨h1, h2, h3, h4⟩ := hpre t (by simp)
    have ht2 := interval_cont_of h1 h2 h3 h4
    simp only [List.cons_append, browse_loop, ht2]
    exact ih (fun u hu => hpre u (by simp [hu]))

/-- Witness for C3 amended at a concrete two-tick trace with no outlinks. -/
theorem c3_hard_timeout_returns_outlinks_witness :
    browse_loop [⟨true, false, false, none, none, 5, false⟩,
      ⟨true, false, false, none, none, 1300, false⟩] = some (.ok none) :=
  c3_hard_timeout_returns_outlinks [⟨true, false, false, none, none, 5, false⟩]
    ⟨true, false, false, none, none, 1300, false⟩ []
    (by decide) rfl (by simp) (by decide)

/-- C8 counterexample: with the abort flag set at every tick, a visit can
still complete normally. First tick: behavior finished, no outlinks, no
pending query, so the outlink query is issued (the abort flag is not
consulted on that branch); the reply arrives between ticks; second tick:
outlinks present, so browse_page returns them without raising. -/
theorem c8_counterexample :
    browse_loop [⟨true, true, true, none, none, 1, true⟩,
      ⟨true, true, true, some {"http://a"}, some 8, 2, true⟩]
      = some (.ok (some {"http://a"})) ∧
    (⟨true, true, true, none, none, 1, true⟩ : TickState).abortRequested
      = true ∧
    (⟨true, true, true, some {"http://a"}, some 8, 2, true⟩
      : TickState).abortRequested = true := by decide

/-- C8 amended: no Browser operation ever clears the abort flag once it is
set (the only writes in the source are __init__ and abort_browse_page), and
a subsequent browse_page on the same Browser raises BrowsingAborted at
every tick at which the websocket is connected, the behavior-finished
branch is not taken, and the hard timeout is not exceeded; a visit whose
behavior finishes before any such tick can however still complete normally
(see the counterexample). -/
theorem c8_abort_flag_sticky :
    (∀ ops : List DriverOp, List.foldl apply_abort_flag true ops = true) ∧
    (∀ s : TickState, s.abortRequested = true → s.connected = true →
      ¬(s.behaviorPresent = true ∧ s.behaviorFinished = true) →
      s.elapsed ≤ HARD_TIMEOUT_SECONDS →
      browse_interval_func s = .raiseBrowsingAborted) := by
  constructor
  · intro ops
    induction ops with
    | nil => rfl
    | cons op t ih =>
      have h : apply_abort_flag true op = true := by cases op <;> rfl
      simp only [List.foldl, h]
      exact ih
  · intro s ha hc hb he
    exact (interval_aborted_iff s).mpr ⟨hc, hb, he, ha⟩

/-- Witness for C8 amended: the flag survives stop/start/browse_page, and
a fresh tick with abort set raises. -/
theorem c8_abort_flag_sticky_witness :
    List.foldl apply_abort_flag true
      [DriverOp.stop, DriverOp.start, DriverOp.browsePage,
        DriverOp.handleMessage] = true ∧
    browse_interval_func ⟨true, false, false, none, none, 3, true⟩
      = .raiseBrowsingAborted :=
  ⟨c8_abort_flag_sticky.1 _,
    c8_abort_flag_sticky.2 ⟨true, false, false, none, none, 3, true⟩
      rfl rfl (by simp) (by decide)⟩

/-! ## Claim theorems: outlink extraction -/

/-- C4 counterexample: the value joined from the page can contain adjacent
spaces (e.g. an anchor with an empty href, or no anchors at all), and
Python value.split(" ") keeps the empty fields, so the stored outlink set
can contain the empty string, contradicting that every element is a
non-empty string. -/
theorem c4_counterexample :
    "" ∈ outlinks_of_value "http://a  http://b" ∧
    (handle_message { init_browser_state "http://e/" true true true
        (fun _ => false) with waitingOutlinksId := some 5 }
      (Msg.result 5 "http://a  http://b")).1.outlinks
      = some (outlinks_of_value "http://a  http://b") := by decide

/-- C4 amended: when the reply whose id equals the outlinks-pending id
arrives (and does not match the screenshot-pending id, which is checked
first), the handler stores the distinct set of the fields of the returned
value split on single spaces. The set has no duplicates; its elements are
exactly the split fields, so they are all non-empty precisely when no split
field is empty (no adjacent, leading or trailing spaces and a non-empty
value). -/
theorem c4_outlinks_distinct_fields (s : BrowserState) (id : Nat) (v : String)
    (hshot : s.waitingScreenshotId ≠ some id)
    (hout : s.waitingOutlinksId = some id) :
    (handle_message s (.result id v)).1.outlinks = some (outlinks_of_value v) ∧
    (outlinks_of_value v).val.Nodup ∧
    (∀ x, x ∈ outlinks_of_value v ↔ x ∈ py_split_space v) ∧
    ("" ∉ py_split_space v → ∀ x ∈ outlinks_of_value v, x ≠ "") := by
  refine ⟨?_, (outlinks_of_value v).nodup, ?_, ?_⟩
  · simp [handle_message, hshot, hout]
  · intro x
    exact List.mem_toFinset
  · intro h x hx hxe
    subst hxe
    exact h (List.mem_toFinset.mp hx)

/-- Witness for C4 amended at a concrete well-formed value. -/
theorem c4_outlinks_distinct_fields_witness :
    (handle_message { init_browser_state "http://e/" true true true
        (fun _ => false) with waitingOutlinksId := some 5 }
      (Msg.result 5 "http://a http://b")).1.outlinks
      = some (outlinks_of_value "http://a http://b") ∧
    (∀ x ∈ outlinks_of_value "http://a http://b", x ≠ "") :=
  ⟨(c4_outlinks_distinct_fields { init_browser_state "http://e/" true true true
        (fun _ => false) with waitingOutlinksId := some 5 } 5 "http://a http://b"
      (by decide) rfl).1,
    (c4_outlinks_distinct_fields { init_browser_state "http://e/" true true true
        (fun _ => false) with waitingOutlinksId := some 5 } 5 "http://a http://b"
      (by decide) rfl).2.2.2 (by decide)⟩

/-! ## Helper lemmas for the screenshot claim -/

lemma screenshot_count_append (a b : List Event) :
    screenshot_count (a ++ b) = screenshot_count a + screenshot_count b := by
  simp [screenshot_count, List.filter_append]

lemma load_count_cons (m : Msg) (ms : List Msg) :
    ((m :: ms).filter is_load_event).length
      = (if is_load_event m then 1 else 0) + (ms.filter is_load_event).length := by
  cases h : is_load_event m <;> simp [List.filter_cons, h, Nat.add_comm]

lemma handle_message_shot_set (s : BrowserState) (m : Msg) :
    (handle_message s m).1.onScreenshotSet = s.onScreenshotSet := by
  cases m with
  | result id data =>
    simp only [handle_message]
    split_ifs <;> rfl
  | requestWillBeSent u => rfl
  | loadEventFired => rfl
  | consoleMessageAdded t => rfl
  | debuggerPaused sc => rfl

lemma step_shot_bound (s : BrowserState) (m : Msg) :
    screenshot_count (handle_message s m).2 +
      (if (handle_message s m).1.waitingScreenshotId.isSome then 1 else 0)
    ≤ (if is_load_event m then 1 else 0) +
      (if s.waitingScreenshotId.isSome then 1 else 0) := by
  cases m with
  | result id data =>
    by_cases h1 : s.waitingScreenshotId = some id
    · simp [handle_message, h1, is_load_event, screenshot_count]
      split_ifs <;> simp [is_screenshot_event]
    · simp only [handle_message, if_neg h1, is_load_event]
      split_ifs <;> simp [screenshot_count, is_screenshot_event]
  | requestWillBeSent u =>
    simp only [handle_message, is_load_event]
    split_ifs <;> simp [screenshot_count, is_screenshot_event]
  | loadEventFired =>
    simp [handle_message, send_to_chrome, is_load_event, screenshot_count,
      is_screenshot_event]
  | consoleMessageAdded t =>
    simp [handle_message, is_load_event, screenshot_count]
  | debuggerPaused sc =>
    simp [handle_message, send_to_chrome, is_load_event, screenshot_count,
      is_screenshot_event]

lemma run_shot_bound (msgs : List Msg) : ∀ s : BrowserState,
    screenshot_count (handle_messages s msgs).2 +
      (if (handle_messages s msgs).1.waitingScreenshotId.isSome then 1 else 0)
    ≤ (msgs.filter is_load_event).length +
      (if s.waitingScreenshotId.isSome then 1 else 0) := by
  induction msgs with
  | nil =>
    intro s
    simp [handle_messages, screenshot_count]
  | cons m ms ih =>
    intro s
    simp only [handle_messages]
    rw [screenshot_count_append, load_count_cons]
    have hstep := step_shot_bound s m
    have hrest := ih (handle_message s m).1
    omega

lemma starts_covered_of_not_mem {l : List Event}
    (h : Event.behaviorStarted ∉ l) : starts_covered l := by
  intro pre suf heq
  subst heq
  exact absurd (List.mem_append.mpr (Or.inr (List.mem_cons_self _ _))) h

lemma starts_covered_append {a b : List Event}
    (ha : starts_covered a) (hb : starts_covered b) :
    starts_covered (a ++ b) := by
  intro pre suf heq
  rcases List.append_eq_append_iff.mp heq.symm with ⟨x, hx1, hx2⟩ | ⟨y, hy1, hy2⟩
  · cases x with
    | nil =>
      obtain ⟨d, hd⟩ := hb [] suf (by simpa using hx2.symm)
      exact absurd hd (List.not_mem_nil _)
    | cons e x2 =>
      simp only [List.cons_append, List.cons.injEq] at hx2
      obtain ⟨d, hd⟩ := ha pre x2 (by rw [hx1, ← hx2.1])
      exact ⟨d, hd⟩
  · obtain ⟨d, hd⟩ := hb y suf hy2
    exact ⟨d, hy1 ▸ List.mem_append.mpr (Or.inr hd)⟩

lemma step_starts_covered (s : BrowserState) (m : Msg)
    (hset : s.onScreenshotSet = true) :
    starts_covered (handle_message s m).2 := by
  cases m with
  | result id data =>
    by_cases h1 : s.waitingScreenshotId = some id
    · simp only [handle_message, if_pos h1, hset, if_true]
      intro pre suf heq
      rcases pre with _ | ⟨e1, pre1⟩
      · simp at heq
      · simp only [List.cons_append, List.cons.injEq] at heq
        exact ⟨b64decode data, heq.1 ▸ List.mem_cons_self _ _⟩
    · apply starts_covered_of_not_mem
      simp only [handle_message, if_neg h1]
      split_ifs <;> simp
  | requestWillBeSent u =>
    apply starts_covered_of_not_mem
    simp only [handle_message]
    split_ifs <;> simp
  | loadEventFired =>
    apply starts_covered_of_not_mem
    simp [handle_message, send_to_chrome]
  | consoleMessageAdded t =>
    apply starts_covered_of_not_mem
    simp [handle_message]
  | debuggerPaused sc =>
    apply starts_covered_of_not_mem
    simp [handle_message, send_to_chrome]

lemma run_starts_covered (msgs : List Msg) : ∀ s : BrowserState,
    s.onScreenshotSet = true →
    starts_covered (handle_messages s msgs).2 := by
  induction msgs with
  | nil =>
    intro s h
    apply starts_covered_of_not_mem
    simp [handle_messages]
  | cons m ms ih =>
    intro s h
    simp only [handle_messages]
    exact starts_covered_append (step_starts_covered s m h)
      (ih (handle_message s m).1 (by rw [handle_message_shot_set]; exact h))

lemma step_shot_payload (s : BrowserState) (m : Msg) (png : List Nat)
    (h : Event.screenshotTaken png ∈ (handle_message s m).2) :
    ∃ id data, m = Msg.result id data ∧ png = b64decode data := by
  cases m with
  | result id data =>
    refine ⟨id, data, rfl, ?_⟩
    by_cases h1 : s.waitingScreenshotId = some id
    · simp only [handle_message, if_pos h1] at h
      split_ifs at h <;> simp_all
    · simp only [handle_message, if_neg h1] at h
      split_ifs at h <;> simp_all
  | requestWillBeSent u =>
    exfalso
    simp only [handle_message] at h
    split_ifs at h <;> simp_all
  | loadEventFired =>
    exfalso
    simp [handle_message, send_to_chrome] at h
  | consoleMessageAdded t =>
    exfalso
    simp [handle_message] at h
  | debuggerPaused sc =>
    exfalso
    simp [handle_message, send_to_chrome] at h

lemma run_shot_payload (msgs : List Msg) : ∀ (s : BrowserState) (png : List Nat),
    Event.screenshotTaken png ∈ (handle_messages s msgs).2 →
    ∃ id data, Msg.result id data ∈ msgs ∧ png = b64decode data := by
  induction msgs with
  | nil =>
    intro s png h
    simp [handle_messages] at h
  | cons m ms ih =>
    intro s png h
    simp only [handle_messages, List.mem_append] at h
    rcases h with h | h
    · obtain ⟨id, data, hm, hp⟩ := step_shot_payload s m png h
      exact ⟨id, data, by simp [hm], hp⟩
    · obtain ⟨id, data, hm, hp⟩ := ih (handle_message s m).1 png h
      exact ⟨id, data, by simp [hm], hp⟩

theorem c7_counterexample :
    screenshot_count (handle_messages
      ((visit_page (init_browser_state "http://e/" true true true
        (fun _ => false))).1)
      [Msg.loadEventFired, Msg.result 8 "QUJD",
        Msg.loadEventFired, Msg.result 10 "QUJD"]).2 = 2 ∧
    (([Msg.loadEventFired, Msg.result 8 "QUJD", Msg.loadEventFired,
        Msg.result 10 "QUJD"] : List Msg).filter is_load_event).length
      = 2 := by decide

theorem c7_screenshot_once_before_behavior (url : String) (bw : Nat → Bool)
    (msgs : List Msg)
    (hload : (msgs.filter is_load_event).length ≤ 1) :
    screenshot_count (handle_messages
      ((visit_page (init_browser_state url true true true bw)).1) msgs).2 ≤ 1 ∧
    starts_covered (handle_messages
      ((visit_page (init_browser_state url true true true bw)).1) msgs).2 ∧
    (∀ png, Event.screenshotTaken png ∈ (handle_messages
        ((visit_page (init_browser_state url true true true bw)).1) msgs).2 →
      ∃ id data, Msg.result id data ∈ msgs ∧ png = b64decode data) := by
  refine ⟨?_, ?_, ?_⟩
  · have h := run_shot_bound msgs (visit_page (init_browser_state url true true true bw)).1
    have hw : (visit_page (init_browser_state url true true true bw)).1.waitingScreenshotId
        = none := rfl
    rw [hw] at h
    simp only [Option.isSome_none, Bool.false_eq_true, if_false] at h
    omega
  · exact run_starts_covered msgs _ rfl
  · intro png h
    exact run_shot_payload msgs _ png h

theorem c7_screenshot_once_before_behavior_witness :
    screenshot_count (handle_messages
      ((visit_page (init_browser_state "http://e/" true true true
        (fun _ => false))).1)
      [Msg.loadEventFired, Msg.result 8 "QUJD"]).2 ≤ 1 :=
  (c7_screenshot_once_before_behavior "http://e/" (fun _ => false)
    [Msg.loadEventFired, Msg.result 8 "QUJD"] (by decide)).1

/-! ## Claim theorems: chrome supervisor -/

/-- C5 counterexample: with two about:blank descriptors where only the
second has a webSocketDebuggerUrl, the unique descriptor satisfying both
conditions of the claim is the second one, but Chrome.start inspects only
the FIRST about:blank entry and finds no websocket url, so it selects
nothing on this poll. -/
theorem c5_counterexample :
    select_debug_target
      [⟨"about:blank", none⟩, ⟨"about:blank", some "ws://x"⟩] = none ∧
    spec_select_target
      [⟨"about:blank", none⟩, ⟨"about:blank", some "ws://x"⟩]
      = some "ws://x" := by decide

/-- C5 amended: start() polls GET /json every 500 ms after spawn and
returns the webSocketDebuggerUrl of the FIRST descriptor whose url is
about:blank, provided that first descriptor has the key; in particular when
exactly one about:blank descriptor exists and carries the key (the spec's
unique entry), that url is returned. If no poll yields a selectable entry
and the elapsed time passes 600 seconds, the loop fails with the startup
error, never touching the spawned process. -/
theorem c5_first_blank_selection_and_timeout :
    (∀ (ts : List DebugTarget) (t : DebugTarget) (u : String),
      ts.filter (fun x => x.url == "about:blank") = [t] →
      t.webSocketDebuggerUrl = some u → select_debug_target ts = some u) ∧
    (∀ iters : List (Option (List DebugTarget) × Nat),
      (∀ p ∈ iters, p.1.bind select_debug_target = none) →
      (∃ p ∈ iters, 600 < p.2) →
      chrome_start_loop iters = some .startupTimeout) ∧
    (∀ (resp : Option (List DebugTarget)) (elapsed : Nat)
        (rest : List (Option (List DebugTarget) × Nat)) (u : String),
      resp.bind select_debug_target = some u → elapsed ≤ 600 →
      chrome_start_loop ((resp, elapsed) :: rest) = some (.ok u)) := by
  refine ⟨?_, ?_, ?_⟩
  · intro ts t u hf hu
    simp [select_debug_target, hf, hu]
  · intro iters
    induction iters with
    | nil =>
      intro h1 h2
      simp at h2
    | cons p rest ih =>
      intro h1 h2
      obtain ⟨resp, elapsed⟩ := p
      have hnone : resp.bind select_debug_target = none :=
        h1 (resp, elapsed) (List.mem_cons_self _ _)
      by_cases he : 600 < elapsed
      · simp [chrome_start_loop, hnone, he]
      · simp only [chrome_start_loop, hnone, if_neg he]
        apply ih
        · intro q hq
          exact h1 q (by simp [hq])
        · rcases h2 with ⟨q, hq, hqe⟩
          rcases List.mem_cons.mp hq with rfl | hq2
          · exact absurd hqe he
          · exact ⟨q, hq2, hqe⟩
  · intro resp elapsed rest u hu he
    simp [chrome_start_loop, hu, Nat.not_lt.mpr he]

/-- Witness for C5 amended: a unique about:blank entry is selected, an
entry-less 601-second trace times out, and a successful poll returns the
url. -/
theorem c5_first_blank_selection_and_timeout_witness :
    select_debug_target [⟨"about:blank", some "ws://y"⟩] = some "ws://y" ∧
    chrome_start_loop [(none, 100), (some [], 601)] = some .startupTimeout ∧
    chrome_start_loop [(some [⟨"about:blank", some "ws://y"⟩], 3)]
      = some (.ok "ws://y") :=
  ⟨c5_first_blank_selection_and_timeout.1 [⟨"about:blank", some "ws://y"⟩]
      ⟨"about:blank", some "ws://y"⟩ "ws://y" (by decide) rfl,
    c5_first_blank_selection_and_timeout.2.1 [(none, 100), (some [], 601)]
      (by decide) (by decide),
    c5_first_blank_selection_and_timeout.2.2
      (some [⟨"about:blank", some "ws://y"⟩]) 3 [] "ws://y"
      (by decide) (by decide)⟩

/-- Every exit of the Chrome.stop loop leaves the process dead and never
deletes the temporary directories. -/
lemma chrome_stop_aux_dead (poll : Nat → Option Int) :
    ∀ fuel now lastSig terms,
      (chrome_stop_aux poll fuel now lastSig terms).processAlive = false ∧
      (chrome_stop_aux poll fuel now lastSig terms).tempDirsDeleted = false := by
  intro fuel
  induction fuel with
  | zero =>
    intro now lastSig terms
    exact ⟨rfl, rfl⟩
  | succ n ih =>
    intro now lastSig terms
    simp only [chrome_stop_aux]
    rcases hp : poll (now + 1) with _ | v
    · simp only [hp]
      split_ifs <;> exact ih _ _ _
    · simp [hp]

/-- C6 counterexample: the process exits on the first poll, stop() returns,
and the temporary directories have NOT been deleted by Chrome.stop — no
return path of Chrome.stop deletes them (they are removed later by
Browser.stop's TemporaryDirectory cleanup). -/
theorem c6_counterexample :
    (chrome_stop (fun _ => some 0)).tempDirsDeleted = false ∧
    (chrome_stop (fun _ => some 0)).processAlive = false := by decide

/-- C6 amended: after Chrome.stop returns the subprocess is not alive on
every return path (SIGTERM first, re-sent roughly every 10 seconds while
the process ignores it, SIGKILL plus a synchronous reap once the 300 second
window is exhausted), but Chrome.stop deletes no temporary directory on any
return path; that cleanup lives in Browser.stop. -/
theorem c6_stop_kills_but_keeps_dirs :
    (∀ poll : Nat → Option Int,
      (chrome_stop poll).processAlive = false ∧
      (chrome_stop poll).tempDirsDeleted = false) ∧
    ((chrome_stop (fun _ => none)).sigkillSent = true ∧
      2 ≤ (chrome_stop (fun _ => none)).sigtermCount) := by
  constructor
  · intro poll
    exact chrome_stop_aux_dead poll 600 0 0 1
  · constructor <;> decide

/-- Witness for C6 amended at a concrete poll function. -/
theorem c6_stop_kills_but_keeps_dirs_witness :
    (chrome_stop (fun _ => some 7)).processAlive = false ∧
    (chrome_stop (fun _ => some 7)).tempDirsDeleted = false :=
  c6_stop_kills_but_keeps_dirs.1 (fun _ => some 7)
